import Mathlib

/-!
Shallow embedding of the Inflexion mass-point model (`src/MassPoint.h`).

`Real` is embedded as `ℚ` (exact arithmetic; the source uses `double`),
`vec3<Real>` as a three-component structure, and each inline method of
`MassPoint` as a pure function from the old state to the new state.
-/

namespace Inflexion

/-- Embedding of `typedef double Real` (exact arithmetic). -/
abbrev Real := ℚ

/-- Embedding of `vec3<Real>`. -/
structure Vec3 where
  x : Real
  y : Real
  z : Real
deriving DecidableEq, Repr

/-- Componentwise vector addition. -/
def Vec3.add (a b : Vec3) : Vec3 := ⟨a.x + b.x, a.y + b.y, a.z + b.z⟩

/-- Componentwise vector subtraction. -/
def Vec3.sub (a b : Vec3) : Vec3 := ⟨a.x - b.x, a.y - b.y, a.z - b.z⟩

/-- Componentwise vector negation. -/
def Vec3.neg (a : Vec3) : Vec3 := ⟨-a.x, -a.y, -a.z⟩

/-- Scalar multiplication. -/
def Vec3.smul (c : Real) (a : Vec3) : Vec3 := ⟨c * a.x, c * a.y, c * a.z⟩

/-- Dot product. -/
def Vec3.dot (a b : Vec3) : Real := a.x * b.x + a.y * b.y + a.z * b.z

instance : Add Vec3 := ⟨Vec3.add⟩

instance : Sub Vec3 := ⟨Vec3.sub⟩

instance : Neg Vec3 := ⟨Vec3.neg⟩

instance : SMul Real Vec3 := ⟨Vec3.smul⟩

/-- Embedding of `const vec3<Real> zeroVec(0.,0.,0.)` from `stdafx.h`. -/
def zeroVec : Vec3 := ⟨0, 0, 0⟩

theorem Vec3.add_def (a b : Vec3) : a + b = ⟨a.x + b.x, a.y + b.y, a.z + b.z⟩ := rfl

theorem Vec3.sub_def (a b : Vec3) : a - b = ⟨a.x - b.x, a.y - b.y, a.z - b.z⟩ := rfl

theorem Vec3.neg_def (a : Vec3) : -a = ⟨-a.x, -a.y, -a.z⟩ := rfl

theorem Vec3.smul_def (c : Real) (a : Vec3) : c • a = ⟨c * a.x, c * a.y, c * a.z⟩ := rfl

theorem Vec3.add_zeroVec (a : Vec3) : a + zeroVec = a := by
  cases a
  simp [Vec3.add_def, zeroVec]

/--
Embedding of `class MassPoint`: the four positions `r, rMinus, rPlus, r0`,
the four velocities `v, vMinus, vPlus, v0`, the collision/constraint
accumulators `vRes, f, dr, df`, and the scalar `mass`.
-/
structure MassPoint where
  r : Vec3
  rMinus : Vec3
  rPlus : Vec3
  r0 : Vec3
  v : Vec3
  vMinus : Vec3
  vPlus : Vec3
  v0 : Vec3
  vRes : Vec3
  f : Vec3
  dr : Vec3
  df : Vec3
  mass : Real
deriving DecidableEq, Repr

/-- `void SetMass(Real mass) { this->mass = mass; }` -/
def MassPoint.SetMass (p : MassPoint) (m : Real) : MassPoint :=
  { p with mass := m }

/-- `void ResetForce() { this->f = this->df; this->df = zeroVec; }` -/
def MassPoint.ResetForce (p : MassPoint) : MassPoint :=
  { p with f := p.df, df := zeroVec }

/-- `void ResetDisplacement() { this->dr = zeroVec; }` -/
def MassPoint.ResetDisplacement (p : MassPoint) : MassPoint :=
  { p with dr := zeroVec }

/-- `void ResetRestitutionVelocity() { this->vRes = zeroVec; }` -/
def MassPoint.ResetRestitutionVelocity (p : MassPoint) : MassPoint :=
  { p with vRes := zeroVec }

/-- `void CorrectPosition() { rPlus += dr; }` -/
def MassPoint.CorrectPosition (p : MassPoint) : MassPoint :=
  { p with rPlus := p.rPlus + p.dr }

/-- `void CorrectVelocity() { vPlus += vRes; }` -/
def MassPoint.CorrectVelocity (p : MassPoint) : MassPoint :=
  { p with vPlus := p.vPlus + p.vRes }

/-- `void AddExternalForce(const vec3<Real>& force) { this->f += force; }` -/
def MassPoint.AddExternalForce (p : MassPoint) (force : Vec3) : MassPoint :=
  { p with f := p.f + force }

/-- `void AddDampingForce(const Real& b) { this->f += - b * v; }` -/
def MassPoint.AddDampingForce (p : MassPoint) (b : Real) : MassPoint :=
  { p with f := p.f + (-b) • p.v }

/-- `void Perturb(vec3<Real> v) { this->r += v; }` -/
def MassPoint.Perturb (p : MassPoint) (w : Vec3) : MassPoint :=
  { p with r := p.r + w }

/--
Embedding of `inline ostream& operator<<(ostream& output, const MassPoint& p)`:
the characters the operator appends to the stream, with the numeric rendering
of a `Real` abstracted as `fmt` (the source delegates it to `ostream`).
-/
def printMassPoint (fmt : Real → String) (p : MassPoint) : String :=
  "(" ++ fmt p.r.x ++ ", " ++ fmt p.r.y ++ ", " ++ fmt p.r.z ++ ")" ++ " -- " ++
  "(" ++ fmt p.r0.x ++ ", " ++ fmt p.r0.y ++ ", " ++ fmt p.r0.z ++ ")" ++ "\n"

/-! ### Collision kernel (modelled from the spec)

`CollisionUtilities::CollideLinks` is only declared in `src/MassPoint.h`; its
body lives in a translation unit that is not part of the sources. The
definitions below model it from the spec, section 4.2. -/

/-- Clamp a scalar to the unit interval. -/
def clamp01 (q : Real) : Real := max 0 (min 1 q)

/-- Point on the segment from `p` to `q` at parameter `t`. -/
def segLerp (p q : Vec3) (t : Real) : Vec3 := p + t • (q - p)

/-- Squared Euclidean distance between two points. -/
def sqDist (u w : Vec3) : Real := Vec3.dot (u - w) (u - w)

/-- Centroid of a triangle given by its three vertices. -/
def triCentroid (a b c : Vec3) : Vec3 := ((1 : Real) / 3) • (a + b + c)

/--
Modelled from the spec: the standard closest-points-between-segments
construction (spec 4.2 step 2) for the segments `p1 q1` and `p2 q2`,
returning the parameter pair `(s, t)` of the closest points, each clamped to
`[0, 1]`; degenerate (zero-length) segments fall back to an endpoint.
-/
def closestSegSeg (p1 q1 p2 q2 : Vec3) : Real × Real :=
  let d1 := q1 - p1
  let d2 := q2 - p2
  let rv := p1 - p2
  let a := Vec3.dot d1 d1
  let e := Vec3.dot d2 d2
  let f := Vec3.dot d2 rv
  if a = 0 ∧ e = 0 then (0, 0)
  else if a = 0 then (0, clamp01 (f / e))
  else
    let c := Vec3.dot d1 rv
    if e = 0 then (clamp01 (-c / a), 0)
    else
      let b := Vec3.dot d1 d2
      let den := a * e - b * b
      let s1 := if den = 0 then 0 else clamp01 ((b * f - c * e) / den)
      let t1 := (b * s1 + f) / e
      if t1 < 0 then (clamp01 (-c / a), 0)
      else if 1 < t1 then (clamp01 ((b - c) / a), 1)
      else (s1, t1)

/-- The twelve mass points handed to `CollideLinks`, in parameter order. -/
structure CollidePair where
  Pi : MassPoint
  Qi : MassPoint
  Ri : MassPoint
  Pip1 : MassPoint
  Qip1 : MassPoint
  Rip1 : MassPoint
  Pj : MassPoint
  Qj : MassPoint
  Rj : MassPoint
  Pjp1 : MassPoint
  Qjp1 : MassPoint
  Rjp1 : MassPoint
deriving DecidableEq, Repr

/-- First endpoint of link A's centerline: centroid of triangle `i`. -/
def linkA0 (st : CollidePair) : Vec3 := triCentroid st.Pi.r st.Qi.r st.Ri.r

/-- Second endpoint of link A's centerline: centroid of triangle `i+1`. -/
def linkA1 (st : CollidePair) : Vec3 := triCentroid st.Pip1.r st.Qip1.r st.Rip1.r

/-- First endpoint of link B's centerline: centroid of triangle `j`. -/
def linkB0 (st : CollidePair) : Vec3 := triCentroid st.Pj.r st.Qj.r st.Rj.r

/-- Second endpoint of link B's centerline: centroid of triangle `j+1`. -/
def linkB1 (st : CollidePair) : Vec3 := triCentroid st.Pjp1.r st.Qjp1.r st.Rjp1.r

/-- Closest-point parameter pair between the two centerlines. -/
def linkClosest (st : CollidePair) : Real × Real :=
  closestSegSeg (linkA0 st) (linkA1 st) (linkB0 st) (linkB1 st)

/-- Squared distance between the closest points of the two centerlines. -/
def linkSqDist (st : CollidePair) : Real :=
  sqDist (segLerp (linkA0 st) (linkA1 st) (linkClosest st).1)
    (segLerp (linkB0 st) (linkB1 st) (linkClosest st).2)

/--
Modelled from the spec: the collision predicate of `CollideLinks` —
collision is signaled exactly when the centerline distance `d` satisfies
`d < 2·rad` (spec 4.2 step 3), stated on squared quantities, which for
nonnegative `d` and `rad` is the same test.
-/
def collideDetected (st : CollidePair) (rad : Real) : Bool :=
  decide (linkSqDist st < 4 * rad * rad)

/-- Points with `mass ≤ 0` are immovable and receive no displacement or
restitution share (spec 4.1 and 8). -/
def massGate (p : MassPoint) : Real := if p.mass ≤ 0 then 0 else 1

/-- Accumulate one collision response contribution into a point: displacement
along the contact normal scaled by the penetration measure `k`, restitution
velocity opposing the normal relative velocity `vn`, and a friction force
opposing the tangential relative velocity `vt`, weighted by `w`. All
contributions are added, never overwritten (spec 4.2 step 7). -/
def respond (w : Real) (nrm vt : Vec3) (k vn mu : Real) (p : MassPoint) :
    MassPoint :=
  { p with
    dr := p.dr + (massGate p * w * k) • nrm,
    vRes := p.vRes + (massGate p * w * (-vn)) • nrm,
    df := p.df + (-(mu * w)) • vt }

/--
Modelled from the spec: the collision branch of `CollideLinks` (spec 4.2
steps 4-7). The exact response formulas are left open by the spec
(section 9: "an implementer must choose a standard, documented weighting");
this model uses the barycentric weights `(1-s)/3`, `s/3` per vertex, a
penetration measure `4·rad² − d²`, a fallback normal for coincident closest
points, and Galilean-opposite contributions for link B.
-/
def collideResponse (st : CollidePair) (rad mu : Real) : CollidePair :=
  let s := (linkClosest st).1
  let t := (linkClosest st).2
  let cA := segLerp (linkA0 st) (linkA1 st) s
  let cB := segLerp (linkB0 st) (linkB1 st) t
  let nrm := if cA - cB = zeroVec then (⟨1, 0, 0⟩ : Vec3) else cA - cB
  let k := 4 * rad * rad - linkSqDist st
  let vA := ((1 - s) * ((1 : Real) / 3)) • (st.Pi.v + st.Qi.v + st.Ri.v) +
    (s * ((1 : Real) / 3)) • (st.Pip1.v + st.Qip1.v + st.Rip1.v)
  let vB := ((1 - t) * ((1 : Real) / 3)) • (st.Pj.v + st.Qj.v + st.Rj.v) +
    (t * ((1 : Real) / 3)) • (st.Pjp1.v + st.Qjp1.v + st.Rjp1.v)
  let vRel := vA - vB
  let vn := Vec3.dot vRel nrm / Vec3.dot nrm nrm
  let vt := vRel - vn • nrm
  let wI := (1 - s) * ((1 : Real) / 3)
  let wIp1 := s * ((1 : Real) / 3)
  let wJ := (1 - t) * ((1 : Real) / 3)
  let wJp1 := t * ((1 : Real) / 3)
  { Pi := respond wI nrm vt k vn mu st.Pi,
    Qi := respond wI nrm vt k vn mu st.Qi,
    Ri := respond wI nrm vt k vn mu st.Ri,
    Pip1 := respond wIp1 nrm vt k vn mu st.Pip1,
    Qip1 := respond wIp1 nrm vt k vn mu st.Qip1,
    Rip1 := respond wIp1 nrm vt k vn mu st.Rip1,
    Pj := respond wJ (-nrm) (-vt) k (-vn) mu st.Pj,
    Qj := respond wJ (-nrm) (-vt) k (-vn) mu st.Qj,
    Rj := respond wJ (-nrm) (-vt) k (-vn) mu st.Rj,
    Pjp1 := respond wJp1 (-nrm) (-vt) k (-vn) mu st.Pjp1,
    Qjp1 := respond wJp1 (-nrm) (-vt) k (-vn) mu st.Qjp1,
    Rjp1 := respond wJp1 (-nrm) (-vt) k (-vn) mu st.Rjp1 }

/--
Modelled from the spec: `CollisionUtilities::CollideLinks`. Computes the two
centerline segments from the triangle centroids (spec 4.2 step 1), the
closest-point pair (step 2), and applies the response exactly when the
capped cylinders overlap, i.e. when `d < 2·rad` (step 3); otherwise it
returns the twelve points unchanged.
-/
def CollideLinks (st : CollidePair) (rad mu : Real) : CollidePair :=
  if linkSqDist st < 4 * rad * rad then collideResponse st rad mu else st

theorem clamp01_nonneg (q : Real) : 0 ≤ clamp01 q := le_max_left 0 _

theorem clamp01_le_one (q : Real) : clamp01 q ≤ 1 := by
  refine max_le zero_le_one (min_le_left 1 q)

theorem closestSegSeg_bounds (p1 q1 p2 q2 : Vec3) :
    0 ≤ (closestSegSeg p1 q1 p2 q2).1 ∧ (closestSegSeg p1 q1 p2 q2).1 ≤ 1 ∧
    0 ≤ (closestSegSeg p1 q1 p2 q2).2 ∧ (closestSegSeg p1 q1 p2 q2).2 ≤ 1 := by
  simp only [closestSegSeg]
  split_ifs with h1 h2 h3 h4 h5 h6 <;>
    simp_all [clamp01_nonneg, clamp01_le_one, le_refl, zero_le_one]

end Inflexion

namespace Inflexion

/-- C1: `ResetForce` moves `df` into `f`, zeroes `df`, and changes nothing else. -/
theorem resetForce_commits_df (p : MassPoint) :
    (p.ResetForce).f = p.df ∧ (p.ResetForce).df = zeroVec ∧
    (p.ResetForce).r = p.r ∧ (p.ResetForce).rMinus = p.rMinus ∧
    (p.ResetForce).rPlus = p.rPlus ∧ (p.ResetForce).r0 = p.r0 ∧
    (p.ResetForce).v = p.v ∧ (p.ResetForce).vMinus = p.vMinus ∧
    (p.ResetForce).vPlus = p.vPlus ∧ (p.ResetForce).v0 = p.v0 ∧
    (p.ResetForce).vRes = p.vRes ∧ (p.ResetForce).dr = p.dr ∧
    (p.ResetForce).mass = p.mass := by
  refine ⟨rfl, rfl, rfl, rfl, rfl, rfl, rfl, rfl, rfl, rfl, rfl, rfl, rfl⟩

/-- C2: two consecutive `ResetForce` calls zero both `f` and `df`, whatever
their initial values. -/
theorem resetForce_twice_zeroes (p : MassPoint) :
    (p.ResetForce.ResetForce).f = zeroVec ∧ (p.ResetForce.ResetForce).df = zeroVec := by
  exact ⟨rfl, rfl⟩

/-- C4: `CorrectPosition` adds `dr` to `rPlus` and changes nothing else; a
second call without an intervening reset adds `dr` again, leaving `rPlus` at
its original value plus `2 • dr` (the operation is not idempotent). -/
theorem correctPosition_adds_dr (p : MassPoint) :
    (p.CorrectPosition).rPlus = p.rPlus + p.dr ∧
    (p.CorrectPosition).r = p.r ∧ (p.CorrectPosition).rMinus = p.rMinus ∧
    (p.CorrectPosition).r0 = p.r0 ∧
    (p.CorrectPosition).v = p.v ∧ (p.CorrectPosition).vMinus = p.vMinus ∧
    (p.CorrectPosition).vPlus = p.vPlus ∧ (p.CorrectPosition).v0 = p.v0 ∧
    (p.CorrectPosition).vRes = p.vRes ∧ (p.CorrectPosition).f = p.f ∧
    (p.CorrectPosition).dr = p.dr ∧ (p.CorrectPosition).df = p.df ∧
    (p.CorrectPosition).mass = p.mass ∧
    (p.CorrectPosition.CorrectPosition).rPlus = p.rPlus + (2 : Real) • p.dr := by
  refine ⟨rfl, rfl, rfl, rfl, rfl, rfl, rfl, rfl, rfl, rfl, rfl, rfl, rfl, ?_⟩
  show p.rPlus + p.dr + p.dr = p.rPlus + (2 : Real) • p.dr
  cases p.rPlus
  cases p.dr
  simp [Vec3.add_def, Vec3.smul_def]
  refine ⟨by ring, by ring, by ring⟩

/-- C5: `CorrectVelocity` adds `vRes` to `vPlus` and changes nothing else. -/
theorem correctVelocity_adds_vRes (p : MassPoint) :
    (p.CorrectVelocity).vPlus = p.vPlus + p.vRes ∧
    (p.CorrectVelocity).r = p.r ∧ (p.CorrectVelocity).rMinus = p.rMinus ∧
    (p.CorrectVelocity).rPlus = p.rPlus ∧ (p.CorrectVelocity).r0 = p.r0 ∧
    (p.CorrectVelocity).v = p.v ∧ (p.CorrectVelocity).vMinus = p.vMinus ∧
    (p.CorrectVelocity).v0 = p.v0 ∧
    (p.CorrectVelocity).vRes = p.vRes ∧ (p.CorrectVelocity).f = p.f ∧
    (p.CorrectVelocity).dr = p.dr ∧ (p.CorrectVelocity).df = p.df ∧
    (p.CorrectVelocity).mass = p.mass := by
  refine ⟨rfl, rfl, rfl, rfl, rfl, rfl, rfl, rfl, rfl, rfl, rfl, rfl, rfl⟩

/-- C6: `AddExternalForce` adds its argument to the active accumulator `f`
(not to the deferred buffer `df`) and changes nothing else. -/
theorem addExternalForce_targets_f (p : MassPoint) (force : Vec3) :
    (p.AddExternalForce force).f = p.f + force ∧
    (p.AddExternalForce force).df = p.df ∧
    (p.AddExternalForce force).r = p.r ∧
    (p.AddExternalForce force).rMinus = p.rMinus ∧
    (p.AddExternalForce force).rPlus = p.rPlus ∧
    (p.AddExternalForce force).r0 = p.r0 ∧
    (p.AddExternalForce force).v = p.v ∧
    (p.AddExternalForce force).vMinus = p.vMinus ∧
    (p.AddExternalForce force).vPlus = p.vPlus ∧
    (p.AddExternalForce force).v0 = p.v0 ∧
    (p.AddExternalForce force).vRes = p.vRes ∧
    (p.AddExternalForce force).dr = p.dr ∧
    (p.AddExternalForce force).mass = p.mass := by
  refine ⟨rfl, rfl, rfl, rfl, rfl, rfl, rfl, rfl, rfl, rfl, rfl, rfl, rfl⟩

/-- C7: `AddDampingForce b` adds `-b • v` (the current velocity `v`, not
`vMinus` or `vPlus`) to `f` and changes nothing else. -/
theorem addDampingForce_drag (p : MassPoint) (b : Real) :
    (p.AddDampingForce b).f = p.f + (-b) • p.v ∧
    (p.AddDampingForce b).r = p.r ∧
    (p.AddDampingForce b).rMinus = p.rMinus ∧
    (p.AddDampingForce b).rPlus = p.rPlus ∧
    (p.AddDampingForce b).r0 = p.r0 ∧
    (p.AddDampingForce b).v = p.v ∧
    (p.AddDampingForce b).vMinus = p.vMinus ∧
    (p.AddDampingForce b).vPlus = p.vPlus ∧
    (p.AddDampingForce b).v0 = p.v0 ∧
    (p.AddDampingForce b).vRes = p.vRes ∧
    (p.AddDampingForce b).dr = p.dr ∧
    (p.AddDampingForce b).df = p.df ∧
    (p.AddDampingForce b).mass = p.mass := by
  refine ⟨rfl, rfl, rfl, rfl, rfl, rfl, rfl, rfl, rfl, rfl, rfl, rfl, rfl⟩

/-- C8: none of the public mutating operations (`SetMass`, `ResetForce`,
`ResetDisplacement`, `ResetRestitutionVelocity`, `CorrectPosition`,
`CorrectVelocity`, `AddExternalForce`, `AddDampingForce`, `Perturb`) touches
the reference position `r0`. -/
theorem r0_never_mutated (p : MassPoint) (m b : Real) (force off : Vec3) :
    (p.SetMass m).r0 = p.r0 ∧
    (p.ResetForce).r0 = p.r0 ∧
    (p.ResetDisplacement).r0 = p.r0 ∧
    (p.ResetRestitutionVelocity).r0 = p.r0 ∧
    (p.CorrectPosition).r0 = p.r0 ∧
    (p.CorrectVelocity).r0 = p.r0 ∧
    (p.AddExternalForce force).r0 = p.r0 ∧
    (p.AddDampingForce b).r0 = p.r0 ∧
    (p.Perturb off).r0 = p.r0 := by
  refine ⟨rfl, rfl, rfl, rfl, rfl, rfl, rfl, rfl, rfl⟩

/-- C9: streaming a point renders exactly `(r.x, r.y, r.z) -- (r0.x, r0.y, r0.z)`
followed by a line break, and the output depends on no field other than `r`
and `r0`. -/
theorem printMassPoint_format (fmt : Real → String) (p q : MassPoint)
    (hr : p.r = q.r) (hr0 : p.r0 = q.r0) :
    printMassPoint fmt p =
      "(" ++ fmt p.r.x ++ ", " ++ fmt p.r.y ++ ", " ++ fmt p.r.z ++ ")" ++
      " -- " ++
      "(" ++ fmt p.r0.x ++ ", " ++ fmt p.r0.y ++ ", " ++ fmt p.r0.z ++ ")" ++
      "\n" ∧
    printMassPoint fmt p = printMassPoint fmt q := by
  constructor
  · rfl
  · simp [printMassPoint, hr, hr0]

/-- A concrete mass point used by witnesses: every position field set from one
vector, everything else zero, unit mass. -/
def samplePoint (a : Vec3) : MassPoint :=
  { r := a, rMinus := a, rPlus := a, r0 := a,
    v := zeroVec, vMinus := zeroVec, vPlus := zeroVec, v0 := zeroVec,
    vRes := zeroVec, f := zeroVec, dr := zeroVec, df := zeroVec, mass := 1 }

/-- Witness for C9 at a concrete formatter and two points sharing `r`, `r0`. -/
theorem printMassPoint_format_witness :
    printMassPoint (fun q => toString q.num) (samplePoint ⟨1, 2, 3⟩) =
      "(" ++ "1" ++ ", " ++ "2" ++ ", " ++ "3" ++ ")" ++ " -- " ++
      "(" ++ "1" ++ ", " ++ "2" ++ ", " ++ "3" ++ ")" ++ "\n" ∧
    printMassPoint (fun q => toString q.num) (samplePoint ⟨1, 2, 3⟩) =
      printMassPoint (fun q => toString q.num)
        ((samplePoint ⟨1, 2, 3⟩).SetMass 5) := by
  have h := printMassPoint_format (fun q => toString q.num)
    (samplePoint ⟨1, 2, 3⟩) ((samplePoint ⟨1, 2, 3⟩).SetMass 5) rfl rfl
  exact ⟨h.1, h.2⟩

/-- C3: when every point pair on the two centerline segments is at squared
distance at least `(2·rad)²` — i.e. the minimal centerline distance `d`
satisfies `d ≥ 2·rad` — `CollideLinks` returns all twelve points unchanged
and no collision is signaled: collision happens only under the strict
inequality `d < 2·rad`. -/
theorem collideLinks_no_overlap_noop (st : CollidePair) (rad mu : Real)
    (h : ∀ s t : Real, 0 ≤ s → s ≤ 1 → 0 ≤ t → t ≤ 1 →
      4 * rad * rad ≤
        sqDist (segLerp (linkA0 st) (linkA1 st) s)
          (segLerp (linkB0 st) (linkB1 st) t)) :
    CollideLinks st rad mu = st ∧ collideDetected st rad = false := by
  obtain ⟨h1, h2, h3, h4⟩ :=
    closestSegSeg_bounds (linkA0 st) (linkA1 st) (linkB0 st) (linkB1 st)
  have hd : 4 * rad * rad ≤ linkSqDist st := h _ _ h1 h2 h3 h4
  constructor
  · simp only [CollideLinks]
    rw [if_neg (not_lt.mpr hd)]
  · simp only [collideDetected, decide_eq_false_iff_not, not_lt]
    exact hd

/-- Concrete far-apart configuration: link A's centerline runs along the
x-axis at `y = 0`, link B's along the x-axis at `y = 3`; with `rad = 1` the
centerline distance is `3 ≥ 2·rad` (the spec's no-collision example). -/
def farPair : CollidePair :=
  { Pi := samplePoint ⟨0, 0, 0⟩, Qi := samplePoint ⟨0, 0, 0⟩,
    Ri := samplePoint ⟨0, 0, 0⟩,
    Pip1 := samplePoint ⟨1, 0, 0⟩, Qip1 := samplePoint ⟨1, 0, 0⟩,
    Rip1 := samplePoint ⟨1, 0, 0⟩,
    Pj := samplePoint ⟨0, 3, 0⟩, Qj := samplePoint ⟨0, 3, 0⟩,
    Rj := samplePoint ⟨0, 3, 0⟩,
    Pjp1 := samplePoint ⟨1, 3, 0⟩, Qjp1 := samplePoint ⟨1, 3, 0⟩,
    Rjp1 := samplePoint ⟨1, 3, 0⟩ }

/-- Witness for C3: at the far-apart configuration with `rad = 1`, `mu = 0`,
`CollideLinks` is the identity and no collision is signaled. -/
theorem collideLinks_no_overlap_noop_witness :
    CollideLinks farPair 1 0 = farPair ∧ collideDetected farPair 1 = false :=
  collideLinks_no_overlap_noop farPair 1 0 (by
    intro s t hs hs1 ht ht1
    simp only [farPair, samplePoint, linkA0, linkA1, linkB0, linkB1,
      triCentroid, segLerp, sqDist, Vec3.dot, Vec3.add_def, Vec3.sub_def,
      Vec3.smul_def]
    nlinarith [sq_nonneg (s - t)])

/-- C10: after `ResetDisplacement`, `dr` is zero and `CorrectPosition` is the
identity on the whole state. -/
theorem resetDisplacement_correctPosition_id (p : MassPoint) :
    (p.ResetDisplacement).CorrectPosition = p.ResetDisplacement ∧
    (p.ResetDisplacement).dr = zeroVec := by
  refine ⟨?_, rfl⟩
  show ({ p with dr := zeroVec, rPlus := p.rPlus + zeroVec } : MassPoint) =
    { p with dr := zeroVec }
  rw [Vec3.add_zeroVec]

end Inflexion
